import Mathlib

/-!
Shallow embedding of `src/backend/routers/announcements.py`: CRUD handlers
for announcement records over a document store (an announcements collection
and a teachers collection), with a username-existence authentication gate,
ObjectId validation and ISO-8601 date validation.

The store state is explicit (`DB`).  The server clock reading
(`datetime.utcnow().isoformat()`) and the store-assigned ObjectId of a new
document are passed as parameters (`now`, `newId`).  Each mutating handler
returns its result, the new store state, and the ordered list of store
accesses it performed, so that claims about which collections are touched
before a failure can be stated.
-/

namespace SchoolApi

deriving instance DecidableEq for Except

/-- An announcement document as persisted by the router: Mongo `_id`
(modelled as its 24-hex string form), `message`, optional `start_date`,
`end_date`, `created_by`, `created_at`.  Dates are ISO-8601 strings,
compared lexicographically (BSON string comparison). -/
structure Announcement where
  id : String
  message : String
  start_date : Option String
  end_date : String
  created_by : String
  created_at : String
deriving DecidableEq, Repr

/-- The document store: `announcements_collection` (in natural insertion
order) and `teachers_collection`, of which the router only consults the
`_id` values, modelled as the list of those identifiers. -/
structure DB where
  announcements : List Announcement
  teachers : List String
deriving DecidableEq, Repr

/-- One store access performed by a handler, in program order. -/
inductive Access where
  | teacherFind (username : String)
  | annInsert
  | annUpdate
  | annDelete
  | annFindOne
deriving DecidableEq, Repr

/-- The user-facing error kinds raised by the handlers: 401, 400, 404,
and the generic 500 of the catch-all. -/
inductive ApiError where
  | unauthorized
  | invalidInput
  | notFound
  | internalError
deriving DecidableEq, Repr

/-- Lexicographic order on character lists: the comparison BSON applies to
string-typed fields in `$gte` and `$lte` queries. -/
def lexLe : List Char → List Char → Bool
  | [], _ => true
  | _ :: _, [] => false
  | a :: as, b :: bs => if a < b then true else if a = b then lexLe as bs else false

/-- Lexicographic `≤` on strings (BSON string comparison). -/
def strLe (a b : String) : Bool := lexLe a.data b.data

/-- The hexadecimal digits accepted in an ObjectId string. -/
def isHexDigit (c : Char) : Bool :=
  c.isDigit || ('a' ≤ c && c ≤ 'f') || ('A' ≤ c && c ≤ 'F')

/-- Models `bson.ObjectId(s)` validation of a string argument: a
24-character hexadecimal string is accepted, anything else raises
`InvalidId` (caught by the handlers and turned into a 400). -/
def objectIdOk (s : String) : Bool :=
  s.data.length == 24 && s.data.all isHexDigit

/-- Models Python `s.replace(Z, +00:00)` as done before date parsing:
every occurrence of the character Z is replaced by the six characters
of the UTC offset. -/
def replaceZchars : List Char → List Char
  | [] => []
  | c :: cs =>
    if c = 'Z' then '+' :: '0' :: '0' :: ':' :: '0' :: '0' :: replaceZchars cs
    else c :: replaceZchars cs

/-- Shape of the date part `YYYY-MM-DD` of an ISO-8601 string. -/
def dateShapeOk : List Char → Bool
  | [y1, y2, y3, y4, s1, m1, m2, s2, d1, d2] =>
    y1.isDigit && y2.isDigit && y3.isDigit && y4.isDigit &&
    s1 = '-' && m1.isDigit && m2.isDigit && s2 = '-' && d1.isDigit && d2.isDigit
  | _ => false

/-- Shape of an optional trailing UTC offset `±HH:MM`. -/
def tzShapeOk : List Char → Bool
  | [] => true
  | [sgn, h1, h2, c, m1, m2] =>
    (sgn = '+' || sgn = '-') && h1.isDigit && h2.isDigit && c = ':' && m1.isDigit && m2.isDigit
  | _ => false

/-- Shape of an optional `:SS` seconds part followed by an optional offset. -/
def secShapeOk : List Char → Bool
  | ':' :: s1 :: s2 :: rest => s1.isDigit && s2.isDigit && tzShapeOk rest
  | rest => tzShapeOk rest

/-- Shape of an optional `:MM` minutes part followed by seconds and offset. -/
def minShapeOk : List Char → Bool
  | ':' :: m1 :: m2 :: rest => m1.isDigit && m2.isDigit && secShapeOk rest
  | rest => tzShapeOk rest

/-- Shape of the time part `HH[:MM[:SS]][±HH:MM]`. -/
def timeShapeOk : List Char → Bool
  | h1 :: h2 :: rest => h1.isDigit && h2.isDigit && minShapeOk rest
  | _ => false

/-- Modelled from the behaviour of the external library call
`datetime.fromisoformat`: accepts `YYYY-MM-DD`, optionally followed by a
separator character (not inspected, as in CPython) and a time
`HH[:MM[:SS]]` with an optional UTC offset `±HH:MM`.  Digit-range checks
and fractional seconds are not modelled; the empty string and any string
shorter than a full date are rejected, as in the library. -/
def fromisoformatOk (cs : List Char) : Bool :=
  if cs.length == 10 then dateShapeOk cs
  else dateShapeOk (cs.take 10) && timeShapeOk (cs.drop 11)

/-- The date validation the handlers apply to `end_date` and to a supplied
`start_date`: replace Z by the UTC offset, then parse with
`datetime.fromisoformat`; a parse failure raises `ValueError`, turned into
a 400. -/
def pyDateOk (s : String) : Bool := fromisoformatOk (replaceZchars s.data)

/-- The guard `if start_date:` followed by date validation: `None` and the
empty string are falsy in Python, so only a non-empty supplied
`start_date` is actually validated. -/
def startDateOk : Option String → Bool
  | none => true
  | some sd => if sd.data.isEmpty then true else pyDateOk sd

/-- The authentication gate: `teachers_collection.find_one` on `_id`
followed by a truthiness check, i.e. existence of the username among the
teacher identifiers. -/
def teacherExists (db : DB) (username : String) : Bool :=
  db.teachers.contains username

/-- Mongo `update_one` with an `_id` filter and a field-level `$set`:
rewrites the first matching document, leaves the rest untouched, and
reports the matched count (0 or 1 here). -/
def update_one (l : List Announcement) (oid : String) (f : Announcement → Announcement) :
    List Announcement × Nat :=
  match l with
  | [] => ([], 0)
  | a :: rest =>
    if a.id = oid then (f a :: rest, 1)
    else
      let r := update_one rest oid f
      (a :: r.1, r.2)

/-- Mongo `delete_one` with an `_id` filter: removes the first matching
document and reports the deleted count (0 or 1 here). -/
def delete_one (l : List Announcement) (oid : String) : List Announcement × Nat :=
  match l with
  | [] => ([], 0)
  | a :: rest =>
    if a.id = oid then (rest, 1)
    else
      let r := delete_one rest oid
      (a :: r.1, r.2)

/-- Mongo `find_one` with an `_id` filter: the first matching document. -/
def find_one (l : List Announcement) (oid : String) : Option Announcement :=
  l.find? (fun a => a.id = oid)

/-- The `$set` document of `update_announcement`: replaces exactly
`message`, `start_date` and `end_date`. -/
def setFields (message : String) (start_date : Option String) (end_date : String)
    (a : Announcement) : Announcement :=
  { a with message := message, start_date := start_date, end_date := end_date }

/-- The `{start_date: None}` branch of the active-announcements query:
matches a document whose `start_date` is null. -/
def startDateIsNull (a : Announcement) : Bool := a.start_date.isNone

/-- The `{start_date: {lte: now}}` branch of the active-announcements
query: by BSON type bracketing a string-valued bound only matches
string-valued fields, so a null `start_date` does not match. -/
def startDateLte (now : String) (a : Announcement) : Bool :=
  match a.start_date with
  | none => false
  | some sd => strLe sd now

/-- The filter of `GET /announcements/active`:
`end_date >= now` and (`start_date` is null or `start_date <= now`). -/
def isActive (now : String) (a : Announcement) : Bool :=
  strLe now a.end_date && (startDateIsNull a || startDateLte now a)

/-- `GET /announcements/active`: all documents matching the active filter,
`now` being the server clock reading. -/
def get_active_announcements (db : DB) (now : String) : List Announcement :=
  db.announcements.filter (isActive now)

/-- The sort key of `GET /announcements`: `created_at` descending. -/
def createdAtDesc (a b : Announcement) : Prop := strLe b.created_at a.created_at = true

instance : DecidableRel createdAtDesc :=
  fun a b => inferInstanceAs (Decidable (strLe b.created_at a.created_at = true))

/-- `GET /announcements`: every document, sorted by `created_at`
descending (a stable sort models the store sort). -/
def get_all_announcements (db : DB) : List Announcement :=
  db.announcements.insertionSort createdAtDesc

/-- `POST /announcements`: username gate, date validation, then insert.
`now` is the server clock reading used for `created_at`; `newId` is the
ObjectId the store assigns to the inserted document. -/
def create_announcement (db : DB) (message end_date username : String)
    (start_date : Option String) (now newId : String) :
    Except ApiError Announcement × DB × List Access :=
  if teacherExists db username = false then
    (Except.error ApiError.unauthorized, db, [Access.teacherFind username])
  else if (pyDateOk end_date && startDateOk start_date) = false then
    (Except.error ApiError.invalidInput, db, [Access.teacherFind username])
  else
    let a : Announcement :=
      { id := newId, message := message, start_date := start_date,
        end_date := end_date, created_by := username, created_at := now }
    (Except.ok a, { db with announcements := db.announcements ++ [a] },
      [Access.teacherFind username, Access.annInsert])

/-- `PUT /announcements/id`: username gate, ObjectId validation, date
validation, `update_one` with `$set`, 404 on matched count 0, then
`find_one` to return the updated document (the unreachable `None` result
of that lookup falls into the catch-all 500). -/
def update_announcement (db : DB) (announcement_id message end_date username : String)
    (start_date : Option String) :
    Except ApiError Announcement × DB × List Access :=
  if teacherExists db username = false then
    (Except.error ApiError.unauthorized, db, [Access.teacherFind username])
  else if objectIdOk announcement_id = false then
    (Except.error ApiError.invalidInput, db, [Access.teacherFind username])
  else if (pyDateOk end_date && startDateOk start_date) = false then
    (Except.error ApiError.invalidInput, db, [Access.teacherFind username])
  else
    let r := update_one db.announcements announcement_id (setFields message start_date end_date)
    if r.2 = 0 then
      (Except.error ApiError.notFound, { db with announcements := r.1 },
        [Access.teacherFind username, Access.annUpdate])
    else
      match find_one r.1 announcement_id with
      | some a =>
        (Except.ok a, { db with announcements := r.1 },
          [Access.teacherFind username, Access.annUpdate, Access.annFindOne])
      | none =>
        (Except.error ApiError.internalError, { db with announcements := r.1 },
          [Access.teacherFind username, Access.annUpdate, Access.annFindOne])

/-- `DELETE /announcements/id`: username gate, ObjectId validation,
`delete_one`, 404 on deleted count 0, else a success acknowledgement. -/
def delete_announcement (db : DB) (announcement_id username : String) :
    Except ApiError String × DB × List Access :=
  if teacherExists db username = false then
    (Except.error ApiError.unauthorized, db, [Access.teacherFind username])
  else if objectIdOk announcement_id = false then
    (Except.error ApiError.invalidInput, db, [Access.teacherFind username])
  else
    let r := delete_one db.announcements announcement_id
    if r.2 = 0 then
      (Except.error ApiError.notFound, { db with announcements := r.1 },
        [Access.teacherFind username, Access.annDelete])
    else
      (Except.ok ("Announcement deleted successfully"), { db with announcements := r.1 },
        [Access.teacherFind username, Access.annDelete])

/-- A BSON value as far as the persisted announcement document is
concerned: a string or an explicit null. -/
inductive BsonValue where
  | null
  | str (s : String)
deriving DecidableEq, Repr

/-- The value a Python optional string renders to in the document. -/
def optValue : Option String → BsonValue
  | none => BsonValue.null
  | some s => BsonValue.str s

/-- The document dict literal built by `create_announcement`: all five
keys are always present; an omitted `start_date` is stored as an explicit
null rather than the key being absent. -/
def announcementDoc (a : Announcement) : List (String × BsonValue) :=
  [("message", BsonValue.str a.message),
   ("start_date", optValue a.start_date),
   ("end_date", BsonValue.str a.end_date),
   ("created_by", BsonValue.str a.created_by),
   ("created_at", BsonValue.str a.created_at)]

/-- A sample announcement with no start date, used to exercise the
handlers on concrete inputs. -/
def annA : Announcement :=
  ⟨"aaaaaaaaaaaaaaaaaaaaaaaa", "hello", none, "2025-12-31T00:00:00",
   "teacher1", "2024-02-01T00:00:00"⟩

/-- A sample announcement with a start date. -/
def annB : Announcement :=
  ⟨"bbbbbbbbbbbbbbbbbbbbbbbb", "hi", some ("2024-01-01T00:00:00"),
   "2024-03-01T00:00:00", "teacher1", "2024-01-15T00:00:00"⟩

/-- A sample store with two announcements and one teacher. -/
def exampleDB : DB := ⟨[annA, annB], ["teacher1"]⟩

theorem lexLe_total : ∀ as bs : List Char, lexLe as bs = true ∨ lexLe bs as = true := by
  intro as
  induction as with
  | nil => intro bs; left; rfl
  | cons a as ih =>
    intro bs
    cases bs with
    | nil => right; rfl
    | cons b bs =>
      rcases lt_trichotomy a b with h | h | h
      · left; simp [lexLe, h]
      · subst h
        rcases ih bs with h2 | h2
        · left; simp [lexLe, h2]
        · right; simp [lexLe, h2]
      · right; simp [lexLe, h]

theorem lexLe_trans :
    ∀ as bs cs : List Char, lexLe as bs = true → lexLe bs cs = true → lexLe as cs = true := by
  intro as
  induction as with
  | nil => intro bs cs h1 h2; rfl
  | cons a as ih =>
    intro bs cs h1 h2
    cases bs with
    | nil => simp [lexLe] at h1
    | cons b bs =>
      cases cs with
      | nil => simp [lexLe] at h2
      | cons c cs =>
        by_cases hab : a < b
        · by_cases hbc : b < c
          · have hac : a < c := lt_trans hab hbc
            simp [lexLe, hac]
          · by_cases hbc2 : b = c
            · subst hbc2; simp [lexLe, hab]
            · simp [lexLe, hbc, hbc2] at h2
        · by_cases hab2 : a = b
          · subst hab2
            simp [lexLe] at h1
            by_cases hac : a < c
            · simp [lexLe, hac]
            · by_cases hac2 : a = c
              · subst hac2
                simp [lexLe] at h2 ⊢
                exact ih bs cs h1 h2
              · simp [lexLe, hac, hac2] at h2
          · simp [lexLe, hab, hab2] at h1

theorem strLe_total (a b : String) : strLe a b = true ∨ strLe b a = true :=
  lexLe_total a.data b.data

theorem strLe_trans {a b c : String} (h1 : strLe a b = true) (h2 : strLe b c = true) :
    strLe a c = true :=
  lexLe_trans a.data b.data c.data h1 h2

instance : IsTotal Announcement createdAtDesc :=
  ⟨fun a b => strLe_total b.created_at a.created_at⟩

instance : IsTrans Announcement createdAtDesc :=
  ⟨fun _ _ _ h1 h2 => strLe_trans h2 h1⟩

theorem update_one_zero (l : List Announcement) (oid : String) (f : Announcement → Announcement)
    (h : (update_one l oid f).2 = 0) : (update_one l oid f).1 = l := by
  induction l with
  | nil => rfl
  | cons a rest ih =>
    by_cases ha : a.id = oid
    · simp [update_one, ha] at h
    · simp only [update_one, ha, if_false] at h ⊢
      simp at h ⊢
      exact ih h

theorem update_one_of_not_mem (l : List Announcement) (oid : String)
    (f : Announcement → Announcement) (h : ∀ a ∈ l, a.id ≠ oid) :
    update_one l oid f = (l, 0) := by
  induction l with
  | nil => rfl
  | cons a rest ih =>
    have ha : a.id ≠ oid := h a (by simp)
    have hrest := ih (fun b hb => h b (by simp [hb]))
    simp [update_one, ha, hrest]

theorem update_one_split (l : List Announcement) (oid : String)
    (f : Announcement → Announcement) (h : (update_one l oid f).2 ≠ 0) :
    ∃ l₁ a l₂, l = l₁ ++ a :: l₂ ∧ (∀ b ∈ l₁, b.id ≠ oid) ∧ a.id = oid ∧
      (update_one l oid f).1 = l₁ ++ f a :: l₂ := by
  induction l with
  | nil => simp [update_one] at h
  | cons a rest ih =>
    by_cases ha : a.id = oid
    · exact ⟨[], a, rest, by simp, by simp, ha, by simp [update_one, ha]⟩
    · simp only [update_one, ha, if_false] at h
      simp at h
      obtain ⟨l₁, x, l₂, hsplit, hl₁, hx, hres⟩ := ih h
      refine ⟨a :: l₁, x, l₂, by simp [hsplit], ?_, hx, by simp [update_one, ha, hres]⟩
      intro b hb
      rcases List.mem_cons.mp hb with rfl | hb2
      · exact ha
      · exact hl₁ b hb2

theorem delete_one_zero (l : List Announcement) (oid : String)
    (h : (delete_one l oid).2 = 0) : (delete_one l oid).1 = l := by
  induction l with
  | nil => rfl
  | cons a rest ih =>
    by_cases ha : a.id = oid
    · simp [delete_one, ha] at h
    · simp only [delete_one, ha, if_false] at h ⊢
      simp at h ⊢
      exact ih h

theorem delete_one_of_not_mem (l : List Announcement) (oid : String)
    (h : ∀ a ∈ l, a.id ≠ oid) : delete_one l oid = (l, 0) := by
  induction l with
  | nil => rfl
  | cons a rest ih =>
    have ha : a.id ≠ oid := h a (by simp)
    have hrest := ih (fun b hb => h b (by simp [hb]))
    simp [delete_one, ha, hrest]

/-- C1: an announcement in the store appears in the output of
`list_active()` iff its `end_date` is at or after `now` and its
`start_date` is absent (null) or at or before `now`, both comparisons
lexicographic on ISO-8601 strings and both bounds inclusive. -/
theorem C1_list_active_iff (db : DB) (now : String) (a : Announcement)
    (h : a ∈ db.announcements) :
    a ∈ get_active_announcements db now ↔
      (strLe now a.end_date = true ∧
        (a.start_date = none ∨ ∃ sd, a.start_date = some sd ∧ strLe sd now = true)) := by
  unfold get_active_announcements
  rw [List.mem_filter]
  simp only [h, true_and]
  unfold isActive startDateIsNull startDateLte
  cases hsd : a.start_date with
  | none => simp
  | some sd => simp

/-- C1 witness at a concrete store and timestamp. -/
theorem C1_witness :
    annA ∈ exampleDB.announcements ∧
    (annA ∈ get_active_announcements exampleDB ("2024-06-01T00:00:00") ↔
      (strLe ("2024-06-01T00:00:00") annA.end_date = true ∧
        (annA.start_date = none ∨
          ∃ sd, annA.start_date = some sd ∧ strLe sd ("2024-06-01T00:00:00") = true))) :=
  ⟨by decide, C1_list_active_iff exampleDB ("2024-06-01T00:00:00") annA (by decide)⟩

/-- C2 counterexample: with an existing username and a syntactically
invalid identifier, update fails with InvalidInput, but the trace of store
accesses before the failure is not empty — the user collection was read
for the username check, so the claim that no store access precedes the
failure is false. -/
theorem C2_counterexample :
    ¬ ((update_announcement ⟨[], ["teacher1"]⟩ ("not-a-valid-objectid-xyz") ("m")
          ("2025-01-01T00:00:00") ("teacher1") none).1 =
            Except.error ApiError.invalidInput ∧
       (update_announcement ⟨[], ["teacher1"]⟩ ("not-a-valid-objectid-xyz") ("m")
          ("2025-01-01T00:00:00") ("teacher1") none).2.2 = []) := by
  decide

/-- C2 amended: update and delete with a syntactically invalid identifier
and an existing username fail with InvalidInput, leave the store
unchanged, and touch no collection other than the single user-collection
read performed by the username check, which precedes identifier
validation. -/
theorem C2_invalid_id_after_auth (db : DB) (oid M E u : String) (sd : Option String)
    (hu : teacherExists db u = true) (hbad : objectIdOk oid = false) :
    (update_announcement db oid M E u sd).1 = Except.error ApiError.invalidInput ∧
    (update_announcement db oid M E u sd).2.1 = db ∧
    (update_announcement db oid M E u sd).2.2 = [Access.teacherFind u] ∧
    (delete_announcement db oid u).1 = Except.error ApiError.invalidInput ∧
    (delete_announcement db oid u).2.1 = db ∧
    (delete_announcement db oid u).2.2 = [Access.teacherFind u] := by
  simp [update_announcement, delete_announcement, hu, hbad]

/-- C2 amended witness at a concrete store and identifier. -/
theorem C2_witness :
    (update_announcement exampleDB ("zzz") ("m") ("2025-01-01T00:00:00")
        ("teacher1") none).1 = Except.error ApiError.invalidInput ∧
    (update_announcement exampleDB ("zzz") ("m") ("2025-01-01T00:00:00")
        ("teacher1") none).2.1 = exampleDB ∧
    (update_announcement exampleDB ("zzz") ("m") ("2025-01-01T00:00:00")
        ("teacher1") none).2.2 = [Access.teacherFind ("teacher1")] ∧
    (delete_announcement exampleDB ("zzz") ("teacher1")).1 =
      Except.error ApiError.invalidInput ∧
    (delete_announcement exampleDB ("zzz") ("teacher1")).2.1 = exampleDB ∧
    (delete_announcement exampleDB ("zzz") ("teacher1")).2.2 =
      [Access.teacherFind ("teacher1")] :=
  C2_invalid_id_after_auth exampleDB ("zzz") ("m") ("2025-01-01T00:00:00")
    ("teacher1") none (by decide) (by decide)

/-- C3: create with a username that has no record in the user collection
fails with Unauthorized, leaves the announcement collection unchanged,
and performs no insert. -/
theorem C3_create_unauthorized (db : DB) (M E u now newId : String) (sd : Option String)
    (hu : teacherExists db u = false) :
    (create_announcement db M E u sd now newId).1 = Except.error ApiError.unauthorized ∧
    (create_announcement db M E u sd now newId).2.1 = db ∧
    Access.annInsert ∉ (create_announcement db M E u sd now newId).2.2 := by
  simp [create_announcement, hu]

/-- C3 witness at a concrete store and unknown username. -/
theorem C3_witness :
    (create_announcement exampleDB ("m") ("2025-01-01T00:00:00") ("nobody") none
        ("2024-06-01T00:00:00") ("cccccccccccccccccccccccc")).1 =
      Except.error ApiError.unauthorized ∧
    (create_announcement exampleDB ("m") ("2025-01-01T00:00:00") ("nobody") none
        ("2024-06-01T00:00:00") ("cccccccccccccccccccccccc")).2.1 = exampleDB ∧
    Access.annInsert ∉
      (create_announcement exampleDB ("m") ("2025-01-01T00:00:00") ("nobody") none
        ("2024-06-01T00:00:00") ("cccccccccccccccccccccccc")).2.2 :=
  C3_create_unauthorized exampleDB ("m") ("2025-01-01T00:00:00") ("nobody")
    ("2024-06-01T00:00:00") ("cccccccccccccccccccccccc") none (by decide)

/-- C4 counterexample: a supplied empty-string start_date does not parse
as ISO-8601, yet create succeeds and persists a document, because the
`if start_date:` truthiness guard skips validation of the empty string. -/
theorem C4_counterexample :
    pyDateOk ("") = false ∧
    (create_announcement ⟨[], ["teacher1"]⟩ ("m") ("2025-01-01T00:00:00") ("teacher1")
        (some ("")) ("2024-06-01T00:00:00") ("cccccccccccccccccccccccc")).1 ≠
      Except.error ApiError.invalidInput ∧
    (create_announcement ⟨[], ["teacher1"]⟩ ("m") ("2025-01-01T00:00:00") ("teacher1")
        (some ("")) ("2024-06-01T00:00:00") ("cccccccccccccccccccccccc")).2.1.announcements ≠
      [] := by
  decide

/-- C4 amended: create and update whose end_date, or supplied non-empty
start_date, does not parse as ISO-8601 — with an existing username and,
for update, a valid identifier — fail with InvalidInput and leave the
announcement collection unchanged. -/
theorem C4_invalid_date_rejected (db : DB) (oid M E u now newId : String)
    (sd : Option String) (hu : teacherExists db u = true) (hid : objectIdOk oid = true)
    (hbad : pyDateOk E = false ∨
      ∃ s, sd = some s ∧ s.data.isEmpty = false ∧ pyDateOk s = false) :
    (create_announcement db M E u sd now newId).1 = Except.error ApiError.invalidInput ∧
    (create_announcement db M E u sd now newId).2.1 = db ∧
    (update_announcement db oid M E u sd).1 = Except.error ApiError.invalidInput ∧
    (update_announcement db oid M E u sd).2.1 = db := by
  have hguard : (pyDateOk E && startDateOk sd) = false := by
    rcases hbad with h | ⟨s, rfl, hne, hbad2⟩
    · simp [h]
    · simp [startDateOk, hne, hbad2]
  simp [create_announcement, update_announcement, hu, hid, hguard]

/-- C4 amended witness at a concrete store and a malformed end_date. -/
theorem C4_witness :
    (create_announcement exampleDB ("m") ("garbage") ("teacher1") none
        ("2024-06-01T00:00:00") ("cccccccccccccccccccccccc")).1 =
      Except.error ApiError.invalidInput ∧
    (create_announcement exampleDB ("m") ("garbage") ("teacher1") none
        ("2024-06-01T00:00:00") ("cccccccccccccccccccccccc")).2.1 = exampleDB ∧
    (update_announcement exampleDB ("aaaaaaaaaaaaaaaaaaaaaaaa") ("m") ("garbage")
        ("teacher1") none).1 = Except.error ApiError.invalidInput ∧
    (update_announcement exampleDB ("aaaaaaaaaaaaaaaaaaaaaaaa") ("m") ("garbage")
        ("teacher1") none).2.1 = exampleDB :=
  C4_invalid_date_rejected exampleDB ("aaaaaaaaaaaaaaaaaaaaaaaa") ("m") ("garbage")
    ("teacher1") ("2024-06-01T00:00:00") ("cccccccccccccccccccccccc") none
    (by decide) (by decide) (Or.inl (by decide))

/-- C5: a successful update replaces exactly the message, start_date and
end_date fields of the first record matching the identifier; its id,
created_by and created_at are kept, and every record before and after it
in the collection is unchanged. -/
theorem C5_update_frame (db : DB) (oid M E u : String) (sd : Option String)
    (r : Announcement)
    (h : (update_announcement db oid M E u sd).1 = Except.ok r) :
    ∃ l₁ a l₂, db.announcements = l₁ ++ a :: l₂ ∧ a.id = oid ∧
      (∀ b ∈ l₁, b.id ≠ oid) ∧
      (update_announcement db oid M E u sd).2.1.announcements =
        l₁ ++ ({ a with message := M, start_date := sd, end_date := E } : Announcement) :: l₂ := by
  by_cases hu : teacherExists db u = false
  · exfalso; simp [update_announcement, hu] at h
  by_cases hid : objectIdOk oid = false
  · exfalso; simp [update_announcement, hu, hid] at h
  by_cases hdates : (pyDateOk E && startDateOk sd) = false
  · exfalso; simp [update_announcement, hu, hid, hdates] at h
  by_cases hz : (update_one db.announcements oid (setFields M sd E)).2 = 0
  · exfalso; simp [update_announcement, hu, hid, hdates, hz] at h
  obtain ⟨l₁, a, l₂, hsplit, hl₁, haid, hres⟩ :=
    update_one_split db.announcements oid (setFields M sd E) hz
  refine ⟨l₁, a, l₂, hsplit, haid, hl₁, ?_⟩
  have hnew : (update_announcement db oid M E u sd).2.1.announcements =
      (update_one db.announcements oid (setFields M sd E)).1 := by
    cases hf : find_one (update_one db.announcements oid (setFields M sd E)).1 oid with
    | none => simp [update_announcement, hu, hid, hdates, hz, hf]
    | some x => simp [update_announcement, hu, hid, hdates, hz, hf]
  rw [hnew, hres]
  rfl

/-- C5 witness: a concrete successful update on the sample store. -/
theorem C5_witness :
    ∃ l₁ a l₂, exampleDB.announcements = l₁ ++ a :: l₂ ∧
      a.id = ("aaaaaaaaaaaaaaaaaaaaaaaa") ∧
      (∀ b ∈ l₁, b.id ≠ ("aaaaaaaaaaaaaaaaaaaaaaaa")) ∧
      (update_announcement exampleDB ("aaaaaaaaaaaaaaaaaaaaaaaa") ("new")
          ("2025-06-01T00:00:00") ("teacher1") none).2.1.announcements =
        l₁ ++ ({ a with message := ("new"), start_date := none, end_date := ("2025-06-01T00:00:00") } : Announcement) :: l₂ :=
  C5_update_frame exampleDB ("aaaaaaaaaaaaaaaaaaaaaaaa") ("new")
    ("2025-06-01T00:00:00") ("teacher1") none
    ⟨"aaaaaaaaaaaaaaaaaaaaaaaa", "new", none, "2025-06-01T00:00:00",
     "teacher1", "2024-02-01T00:00:00"⟩ (by decide)

/-- C6: `list_all()` returns every announcement of the store (a
permutation of the collection) ordered by created_at descending: at any
two positions i before j, the created_at at j is at most the created_at
at i. -/
theorem C6_list_all_sorted (db : DB) :
    (get_all_announcements db).Perm db.announcements ∧
    ∀ i j : Fin (get_all_announcements db).length, i < j →
      strLe ((get_all_announcements db).get j).created_at
        ((get_all_announcements db).get i).created_at = true := by
  constructor
  · exact List.perm_insertionSort createdAtDesc db.announcements
  · intro i j hij
    have hs : List.Sorted createdAtDesc (get_all_announcements db) :=
      List.sorted_insertionSort createdAtDesc db.announcements
    exact hs.rel_get_of_lt hij

/-- C6 witness on the sample store. -/
theorem C6_witness :
    (get_all_announcements exampleDB).Perm exampleDB.announcements ∧
    strLe ((get_all_announcements exampleDB).get ⟨1, by decide⟩).created_at
      ((get_all_announcements exampleDB).get ⟨0, by decide⟩).created_at = true :=
  ⟨(C6_list_all_sorted exampleDB).1,
   (C6_list_all_sorted exampleDB).2 ⟨0, by decide⟩ ⟨1, by decide⟩ (by decide)⟩

/-- C7 counterexample: with a valid identifier matching no record and an
existing username but an unparseable end_date, update fails with
InvalidInput rather than NotFound, so the claim needs the dates valid. -/
theorem C7_counterexample :
    objectIdOk ("cccccccccccccccccccccccc") = true ∧
    (∀ a ∈ (⟨[], ["teacher1"]⟩ : DB).announcements,
      a.id ≠ ("cccccccccccccccccccccccc")) ∧
    teacherExists ⟨[], ["teacher1"]⟩ ("teacher1") = true ∧
    (update_announcement ⟨[], ["teacher1"]⟩ ("cccccccccccccccccccccccc") ("m")
        ("garbage") ("teacher1") none).1 ≠ Except.error ApiError.notFound ∧
    (update_announcement ⟨[], ["teacher1"]⟩ ("cccccccccccccccccccccccc") ("m")
        ("garbage") ("teacher1") none).1 = Except.error ApiError.invalidInput := by
  decide

/-- C7 amended: update and delete with a syntactically valid identifier
matching no record, an existing username and — for update — valid dates,
fail with NotFound; the collection is unchanged (for update as well as
delete). -/
theorem C7_not_found (db : DB) (oid M E u : String) (sd : Option String)
    (hu : teacherExists db u = true) (hid : objectIdOk oid = true)
    (hE : pyDateOk E = true) (hsd : startDateOk sd = true)
    (hnomatch : ∀ a ∈ db.announcements, a.id ≠ oid) :
    (update_announcement db oid M E u sd).1 = Except.error ApiError.notFound ∧
    (update_announcement db oid M E u sd).2.1 = db ∧
    (delete_announcement db oid u).1 = Except.error ApiError.notFound ∧
    (delete_announcement db oid u).2.1 = db := by
  have hup := update_one_of_not_mem db.announcements oid (setFields M sd E) hnomatch
  have hdel := delete_one_of_not_mem db.announcements oid hnomatch
  simp [update_announcement, delete_announcement, hu, hid, hE, hsd, hup, hdel]

/-- C7 amended witness at a concrete store and unmatched identifier. -/
theorem C7_witness :
    (update_announcement exampleDB ("cccccccccccccccccccccccc") ("m")
        ("2025-01-01T00:00:00") ("teacher1") none).1 =
      Except.error ApiError.notFound ∧
    (update_announcement exampleDB ("cccccccccccccccccccccccc") ("m")
        ("2025-01-01T00:00:00") ("teacher1") none).2.1 = exampleDB ∧
    (delete_announcement exampleDB ("cccccccccccccccccccccccc") ("teacher1")).1 =
      Except.error ApiError.notFound ∧
    (delete_announcement exampleDB ("cccccccccccccccccccccccc") ("teacher1")).2.1 =
      exampleDB :=
  C7_not_found exampleDB ("cccccccccccccccccccccccc") ("m") ("2025-01-01T00:00:00")
    ("teacher1") none (by decide) (by decide) (by decide) (by decide) (by decide)

/-- C8: a successful create with no start_date, immediately followed by
`list_all()`, yields in the list a record with the assigned identifier
whose message and end_date equal the inputs, whose start_date is null and
whose created_by is the caller. -/
theorem C8_create_roundtrip (db : DB) (M E u now newId : String)
    (hu : teacherExists db u = true) (hE : pyDateOk E = true) :
    ∃ a, (create_announcement db M E u none now newId).1 = Except.ok a ∧
      a ∈ get_all_announcements (create_announcement db M E u none now newId).2.1 ∧
      a.id = newId ∧ a.message = M ∧ a.end_date = E ∧ a.start_date = none ∧
      a.created_by = u := by
  refine ⟨⟨newId, M, none, E, u, now⟩, ?_, ?_, rfl, rfl, rfl, rfl, rfl⟩
  · simp [create_announcement, hu, hE, startDateOk]
  · have hperm := List.perm_insertionSort createdAtDesc
      (create_announcement db M E u none now newId).2.1.announcements
    rw [get_all_announcements]
    refine hperm.mem_iff.mpr ?_
    simp [create_announcement, hu, hE, startDateOk]

/-- C8 witness on the sample store. -/
theorem C8_witness :
    ∃ a, (create_announcement exampleDB ("M") ("2025-01-01T00:00:00") ("teacher1")
        none ("2024-06-01T00:00:00") ("cccccccccccccccccccccccc")).1 = Except.ok a ∧
      a ∈ get_all_announcements (create_announcement exampleDB ("M")
        ("2025-01-01T00:00:00") ("teacher1") none ("2024-06-01T00:00:00")
        ("cccccccccccccccccccccccc")).2.1 ∧
      a.id = ("cccccccccccccccccccccccc") ∧ a.message = ("M") ∧
      a.end_date = ("2025-01-01T00:00:00") ∧ a.start_date = none ∧
      a.created_by = ("teacher1") :=
  C8_create_roundtrip exampleDB ("M") ("2025-01-01T00:00:00") ("teacher1")
    ("2024-06-01T00:00:00") ("cccccccccccccccccccccccc") (by decide) (by decide)

/-- C9: a record created with the start_date argument omitted carries the
start_date key with an explicit null value in its persisted document, the
`{start_date: None}` branch of the active filter matches it, the `$lte`
branch does not, and the active filter degenerates to the end_date
bound alone. -/
theorem C9_omitted_start_date_explicit_null (db : DB) (M E u now newId : String)
    (hu : teacherExists db u = true) (hE : pyDateOk E = true) :
    ∃ a, (create_announcement db M E u none now newId).1 = Except.ok a ∧
      a ∈ (create_announcement db M E u none now newId).2.1.announcements ∧
      announcementDoc a =
        [("message", BsonValue.str M), ("start_date", BsonValue.null),
         ("end_date", BsonValue.str E), ("created_by", BsonValue.str u),
         ("created_at", BsonValue.str now)] ∧
      startDateIsNull a = true ∧
      ∀ t, startDateLte t a = false ∧ isActive t a = strLe t a.end_date := by
  refine ⟨⟨newId, M, none, E, u, now⟩, ?_, ?_, rfl, rfl, ?_⟩
  · simp [create_announcement, hu, hE, startDateOk]
  · simp [create_announcement, hu, hE, startDateOk]
  · intro t
    constructor
    · rfl
    · simp [isActive, startDateIsNull, startDateLte]

/-- C9 witness on the sample store. -/
theorem C9_witness :
    ∃ a, (create_announcement exampleDB ("M") ("2025-01-01T00:00:00") ("teacher1")
        none ("2024-06-01T00:00:00") ("cccccccccccccccccccccccc")).1 = Except.ok a ∧
      a ∈ (create_announcement exampleDB ("M") ("2025-01-01T00:00:00") ("teacher1")
        none ("2024-06-01T00:00:00") ("cccccccccccccccccccccccc")).2.1.announcements ∧
      announcementDoc a =
        [("message", BsonValue.str ("M")), ("start_date", BsonValue.null),
         ("end_date", BsonValue.str ("2025-01-01T00:00:00")),
         ("created_by", BsonValue.str ("teacher1")),
         ("created_at", BsonValue.str ("2024-06-01T00:00:00"))] ∧
      startDateIsNull a = true ∧
      ∀ t, startDateLte t a = false ∧ isActive t a = strLe t a.end_date :=
  C9_omitted_start_date_explicit_null exampleDB ("M") ("2025-01-01T00:00:00")
    ("teacher1") ("2024-06-01T00:00:00") ("cccccccccccccccccccccccc")
    (by decide) (by decide)

/-- C10: in create, update and delete the username-existence check runs
before identifier and date validation, so every request with an unknown
username and at least one malformed input — the identifier, the
end_date, or a supplied start_date that does not parse — yields
Unauthorized, never InvalidInput, and the only store access performed is
the username check on the user collection.  The conclusion does not
depend on which input is malformed: the username check comes first, which
is exactly what the claim asserts. -/
theorem C10_auth_checked_first (db : DB) (oid M E u now newId : String)
    (sd : Option String) (hu : teacherExists db u = false)
    (_hmal : objectIdOk oid = false ∨ pyDateOk E = false ∨
      ∃ s, sd = some s ∧ pyDateOk s = false) :
    ((create_announcement db M E u sd now newId).1 = Except.error ApiError.unauthorized ∧
      (create_announcement db M E u sd now newId).1 ≠ Except.error ApiError.invalidInput ∧
      (create_announcement db M E u sd now newId).2.2 = [Access.teacherFind u]) ∧
    ((update_announcement db oid M E u sd).1 = Except.error ApiError.unauthorized ∧
      (update_announcement db oid M E u sd).1 ≠ Except.error ApiError.invalidInput ∧
      (update_announcement db oid M E u sd).2.2 = [Access.teacherFind u]) ∧
    ((delete_announcement db oid u).1 = Except.error ApiError.unauthorized ∧
      (delete_announcement db oid u).1 ≠ Except.error ApiError.invalidInput ∧
      (delete_announcement db oid u).2.2 = [Access.teacherFind u]) := by
  simp [create_announcement, update_announcement, delete_announcement, hu]

/-- C10 witness: unknown username with a valid identifier and a valid
end_date but a malformed supplied start_date, so only one input of the
malformed-or disjunction is bad; all three operations still answer
Unauthorized after the single user-collection read. -/
theorem C10_witness :
    ((create_announcement exampleDB ("m") ("2025-01-01T00:00:00") ("nobody")
        (some ("not-a-date")) ("2024-06-01T00:00:00") ("cccccccccccccccccccccccc")).1 =
          Except.error ApiError.unauthorized ∧
      (create_announcement exampleDB ("m") ("2025-01-01T00:00:00") ("nobody")
        (some ("not-a-date")) ("2024-06-01T00:00:00") ("cccccccccccccccccccccccc")).1 ≠
          Except.error ApiError.invalidInput ∧
      (create_announcement exampleDB ("m") ("2025-01-01T00:00:00") ("nobody")
        (some ("not-a-date")) ("2024-06-01T00:00:00") ("cccccccccccccccccccccccc")).2.2 =
          [Access.teacherFind ("nobody")]) ∧
    ((update_announcement exampleDB ("cccccccccccccccccccccccc") ("m")
        ("2025-01-01T00:00:00") ("nobody") (some ("not-a-date"))).1 =
          Except.error ApiError.unauthorized ∧
      (update_announcement exampleDB ("cccccccccccccccccccccccc") ("m")
        ("2025-01-01T00:00:00") ("nobody") (some ("not-a-date"))).1 ≠
          Except.error ApiError.invalidInput ∧
      (update_announcement exampleDB ("cccccccccccccccccccccccc") ("m")
        ("2025-01-01T00:00:00") ("nobody") (some ("not-a-date"))).2.2 =
          [Access.teacherFind ("nobody")]) ∧
    ((delete_announcement exampleDB ("cccccccccccccccccccccccc") ("nobody")).1 =
        Except.error ApiError.unauthorized ∧
      (delete_announcement exampleDB ("cccccccccccccccccccccccc") ("nobody")).1 ≠
        Except.error ApiError.invalidInput ∧
      (delete_announcement exampleDB ("cccccccccccccccccccccccc") ("nobody")).2.2 =
        [Access.teacherFind ("nobody")]) :=
  C10_auth_checked_first exampleDB ("cccccccccccccccccccccccc") ("m")
    ("2025-01-01T00:00:00") ("nobody") ("2024-06-01T00:00:00")
    ("cccccccccccccccccccccccc") (some ("not-a-date")) (by decide)
    (Or.inr (Or.inr ⟨"not-a-date", rfl, by decide⟩))

end SchoolApi
